import Mathlib

/-!
Verification of the `preprocessamento.py` compilation pipeline of the
AED-Energia-Solar repository.

The embedding models the four source functions `listar_arquivos`,
`ler_e_formatar_dados`, `processar_arquivo` and `compilar_dados` over an
explicit filesystem state.  The external tabular-data engine (pandas) is
modelled at the granularity the code uses it:

* a raw input file is the table `read_csv` yields under the fixed raw
  configuration (one value column plus a string index), since the parsing
  configuration itself (`skiprows`, `sep`, `decimal`, `encoding`) is an
  external collaborator of the spec;
* numeric values are rationals (the code's arithmetic is plain real
  arithmetic on the parsed decimals);
* `pd.to_datetime(idx, format="%d/%m/%y %H:%M")` is a strict parser of
  the fixed two-digit day/month/year hour:minute format;
* `pd.concat` of an empty list raises (pandas: "No objects to
  concatenate"), modelled as an explicit error;
* `to_csv` followed by `read_csv(..., index_col=0, parse_dates=True)`
  round-trips the stored table, the cached file being read back verbatim.

Interactive `input()` is modelled as a caller-supplied response string,
consulted only where the code calls `input()`.
-/

/-- A parsed timestamp, result of `pd.to_datetime` with the fixed format. -/
structure Timestamp where
  dia : Nat
  mes : Nat
  ano : Nat
  hora : Nat
  minuto : Nat
deriving DecidableEq, Repr

/-- The table `read_csv` yields for a raw input file under the fixed raw
configuration: one value column (named by its raw header) and a string
index of timestamp texts. -/
structure RawDF where
  colName : String
  rows : List (String × ℚ)
deriving DecidableEq, Repr

/-- A formatted series: value column plus parsed datetime index
(the `FormattedSeries` / `CompiledSeries` of the spec). -/
structure FormattedDF where
  colName : String
  rows : List (Timestamp × ℚ)
deriving DecidableEq, Repr

/-- Content of a file on the modelled filesystem: either a raw yearly
measurement file (as parsed by the fixed raw configuration) or a
persisted compiled series (as written by `to_csv`). -/
inductive FileContent where
  | raw (df : RawDF)
  | compiled (df : FormattedDF)
deriving DecidableEq, Repr

/-- A filesystem entry: a file with a directory, a name and content. -/
structure Entry where
  dir : String
  nome : String
  content : FileContent
deriving DecidableEq, Repr

/-- The filesystem state: files plus the set of existing directories. -/
structure FS where
  entries : List Entry
  dirs : List String
deriving DecidableEq, Repr

/-- Errors surfaced by the pipeline.  `formatError` is pandas failing to
parse an index entry under the fixed timestamp format; `invalidResponse`
is the `TypeError` raised by `processar_arquivo` on a response other than
S/N; `noObjectsToConcatenate` is the `ValueError` pandas raises for
`pd.concat` of an empty list; `readError` is a failed file read
(missing file, or content not parseable as the expected table). -/
inductive Erro where
  | formatError (entrada : String)
  | invalidResponse
  | noObjectsToConcatenate
  | readError (caminho : String)
deriving DecidableEq, Repr

/-- Model of `os.path.join` for the single-component joins the code performs. -/
def pathJoin (dir nome : String) : String := dir ++ "/" ++ nome

/-- Model of `os.listdir`: the names of the files in a directory, in the order the
filesystem stores them. -/
def listdir (fs : FS) (dir : String) : List String :=
  (fs.entries.filter (fun e => decide (e.dir = dir))).map (fun e => e.nome)

/-- Model of `os.path.exists` on a path (file or directory). -/
def pathExists (fs : FS) (caminho : String) : Bool :=
  fs.entries.any (fun e => decide (pathJoin e.dir e.nome = caminho)) ||
    fs.dirs.any (fun d => decide (d = caminho))

/-- Reading the content stored at a full path (first matching entry). -/
def readFile (fs : FS) (caminho : String) : Option FileContent :=
  (fs.entries.find? (fun e => decide (pathJoin e.dir e.nome = caminho))).map
    (fun e => e.content)

/-- Model of `os.makedirs(dir, exist_ok=True)`: ensure the directory exists. -/
def makedirs (fs : FS) (dir : String) : FS :=
  if fs.dirs.any (fun d => decide (d = dir)) then fs
  else { fs with dirs := dir :: fs.dirs }

/-- Model of `df.to_csv(path)`: write a file, overwriting any prior content at the
same directory and name. -/
def escrever (fs : FS) (dir nome : String) (c : FileContent) : FS :=
  { fs with
    entries := ⟨dir, nome, c⟩ ::
      fs.entries.filter (fun e => !(decide (e.dir = dir ∧ e.nome = nome))) }

/-- Python's `in` on strings: substring containment, via character lists. -/
def ehPrefixo : List Char → List Char → Bool
  | [], _ => true
  | _ :: _, [] => false
  | a :: as, b :: bs => decide (a = b) && ehPrefixo as bs

/-- Substring search: `padrao` occurs somewhere inside `s`. -/
def contemLista (padrao : List Char) : List Char → Bool
  | [] => ehPrefixo padrao []
  | c :: resto => ehPrefixo padrao (c :: resto) || contemLista padrao resto

/-- Test of `padrao in s` in Python. -/
def strContem (s padrao : String) : Bool :=
  contemLista padrao.toList s.toList

/-- Source function `listar_arquivos`: join every directory entry name onto the directory
path, then keep the joined paths that contain the dataset tag
(`base_de_dados in x` is tested on the full joined path). -/
def listar_arquivos (fs : FS) (diretorio : String) (base_de_dados : String) :
    List String :=
  let arquivos := (listdir fs diretorio).map (fun a => pathJoin diretorio a)
  arquivos.filter (fun x => strContem x base_de_dados)

/-- Numeric value of a decimal digit character. -/
def valorDigito (c : Char) : Option Nat :=
  if c.isDigit then some (c.toNat - 48) else none

/-- A two-digit decimal number, as `strptime` reads `%d`, `%m`, `%y`,
`%H`, `%M` in the fixed zero-padded format. -/
def doisDigitos (a b : Char) : Option Nat :=
  match valorDigito a, valorDigito b with
  | some x, some y => some (10 * x + y)
  | _, _ => none

/-- Model of `pd.to_datetime` on one index entry with format `%d/%m/%y %H:%M`:
strict match of `DD/MM/YY HH:MM` with field range checks (`%y` maps
00-68 to 2000-2068 and 69-99 to 1969-1999). -/
def pd_to_datetime (s : String) : Option Timestamp :=
  match s.toList with
  | [d1, d2, '/', m1, m2, '/', a1, a2, ' ', h1, h2, ':', n1, n2] =>
    match doisDigitos d1 d2, doisDigitos m1 m2, doisDigitos a1 a2,
        doisDigitos h1 h2, doisDigitos n1 n2 with
    | some d, some m, some a, some h, some n =>
      if 1 ≤ d ∧ d ≤ 31 ∧ 1 ≤ m ∧ m ≤ 12 ∧ h ≤ 23 ∧ n ≤ 59 then
        some ⟨d, m, if a ≤ 68 then 2000 + a else 1900 + a, h, n⟩
      else none
    | _, _, _, _, _ => none
  | _ => none

/-- Parse every index entry of a table, failing on the first entry that
does not match the fixed format (the `ValueError` of the source). -/
def converterIndice : List (String × ℚ) → Except Erro (List (Timestamp × ℚ))
  | [] => .ok []
  | (s, v) :: resto =>
    match pd_to_datetime s, converterIndice resto with
    | some t, .ok r => .ok ((t, v) :: r)
    | none, _ => .error (.formatError s)
    | some _, .error e => .error e

/-- Source function `ler_e_formatar_dados`: rename the `kW` column to `Energia`, divide
every value by 1000, clamp negatives to zero, then parse the index as
datetimes. -/
def ler_e_formatar_dados (df : RawDF) : Except Erro FormattedDF :=
  let renomeado : RawDF :=
    ⟨if df.colName = "kW" then "Energia" else df.colName, df.rows⟩
  let dividido : RawDF :=
    ⟨renomeado.colName, renomeado.rows.map (fun p => (p.1, p.2 / 1000))⟩
  let tratado : RawDF :=
    ⟨dividido.colName, dividido.rows.map
      (fun p => (p.1, if p.2 < 0 then 0 else p.2))⟩
  match converterIndice tratado.rows with
  | .ok rows => .ok ⟨tratado.colName, rows⟩
  | .error e => .error e

/-- Source function `processar_arquivo`: the Cache Gate.  `existe` is
`os.path.exists(arquivo)`; `check_usuario` is the response `input()`
yields, consulted only when the file exists. -/
def processar_arquivo (existe : Bool) (check_usuario : String) :
    Except Erro Bool :=
  if existe then
    if check_usuario.toUpper = "S" then .ok true
    else if check_usuario.toUpper = "N" then .ok false
    else .error .invalidResponse
  else .ok true

/-- The combined loss multiplier `(1 - perdas_transformador) *
(1 - perdas_linha)` of `compilar_dados`. -/
def fator_perdas (perdas_transformador perdas_linha : ℚ) : ℚ :=
  (1 - perdas_transformador) * (1 - perdas_linha)

/-- Model of `df_concat *= fator`: scale every value of a series. -/
def aplicarFator (df : FormattedDF) (fator : ℚ) : FormattedDF :=
  ⟨df.colName, df.rows.map (fun p => (p.1, p.2 * fator))⟩

/-- Model of `pd.concat(dfs, axis=0)`: append the rows of all tables.  Pandas
raises `ValueError: No objects to concatenate` on an empty list. -/
def pd_concat : List FormattedDF → Except Erro FormattedDF
  | [] => .error .noObjectsToConcatenate
  | d :: ds => .ok ⟨d.colName, (d :: ds).map (fun x => x.rows) |>.flatten⟩

/-- The per-file loop of `compilar_dados`: read and format every matched
file, in discovery order, stopping at the first failure. -/
def lerTodos (fs : FS) : List String → Except Erro (List FormattedDF)
  | [] => .ok []
  | a :: resto =>
    match readFile fs a with
    | some (.raw r) =>
      match ler_e_formatar_dados r, lerTodos fs resto with
      | .ok df, .ok ds => .ok (df :: ds)
      | .error e, _ => .error e
      | .ok _, .error e => .error e
    | _ => .error (.readError a)

/-- The output directory `<cwd>/data/output`. -/
def outputDir (cwd : String) : String :=
  pathJoin (pathJoin cwd "data") "output"

/-- The deterministic output path
`<cwd>/data/output/dados_compilados_<base_de_dados>.csv`. -/
def outputArquivo (cwd base_de_dados : String) : String :=
  pathJoin (outputDir cwd) ("dados_compilados_" ++ base_de_dados ++ ".csv")

/-- Result of a `compilar_dados` call: the returned series, the
filesystem after the call, and the full paths of the files the call
read. -/
structure ResultadoCompilacao where
  df : FormattedDF
  fs : FS
  leituras : List String
deriving DecidableEq, Repr

/-- The recompute branch of `compilar_dados` (`if processar:`): list the
matching files, format each, concatenate, apply the loss multiplier, and
persist when `salvar_dados` is set. -/
def recompilar (fs : FS) (diretorio base_de_dados : String)
    (perdas_transformador perdas_linha : ℚ) (salvar_dados : Bool)
    (cwd : String) : Except Erro ResultadoCompilacao :=
  let arquivos := listar_arquivos fs diretorio base_de_dados
  match lerTodos fs arquivos with
  | .error e => .error e
  | .ok dados_por_ano =>
    match pd_concat dados_por_ano with
    | .error e => .error e
    | .ok df0 =>
      let df_concat := aplicarFator df0
        (fator_perdas perdas_transformador perdas_linha)
      let fs' :=
        if salvar_dados then
          escrever (makedirs fs (outputDir cwd)) (outputDir cwd)
            ("dados_compilados_" ++ base_de_dados ++ ".csv")
            (.compiled df_concat)
        else fs
      .ok ⟨df_concat, fs', arquivos⟩

/-- Source function `compilar_dados`: consult the Cache Gate on the deterministic output
path; on `true` recompute from the raw files, on `false` load the cached
output verbatim (`pd.read_csv(output_arquivo, index_col=0,
parse_dates=True)`). -/
def compilar_dados (fs : FS) (diretorio base_de_dados : String)
    (perdas_transformador perdas_linha : ℚ) (salvar_dados : Bool)
    (check_usuario : String) (cwd : String) :
    Except Erro ResultadoCompilacao :=
  let output_arquivo := outputArquivo cwd base_de_dados
  match processar_arquivo (pathExists fs output_arquivo) check_usuario with
  | .error e => .error e
  | .ok true =>
    recompilar fs diretorio base_de_dados perdas_transformador
      perdas_linha salvar_dados cwd
  | .ok false =>
    match readFile fs output_arquivo with
    | some (.compiled df) => .ok ⟨df, fs, [output_arquivo]⟩
    | _ => .error (.readError output_arquivo)

deriving instance DecidableEq for Except

/-- The raw table of the spec's worked example: one file with the rows
`01/01/20 00:00;-50` and `01/01/20 12:00;500000`. -/
def rawEx : RawDF := ⟨"kW", [("01/01/20 00:00", -50), ("01/01/20 12:00", 500000)]⟩

/-- A directory `dados` holding the example raw file `Solcast_2020.csv`. -/
def fsEx : FS := ⟨[⟨"dados", "Solcast_2020.csv", .raw rawEx⟩], []⟩

/-- The formatted series `ler_e_formatar_dados` yields on `rawEx`. -/
def dfNorm : FormattedDF :=
  ⟨"Energia", [(⟨1, 1, 2020, 0, 0⟩, 0), (⟨1, 1, 2020, 12, 0⟩, 500)]⟩

/-- The loss-adjusted compiled series on `fsEx` with the default rates
(0.003 and 0.01): `98703/200 = 493.515`. -/
def dfOut : FormattedDF :=
  ⟨"Energia", [(⟨1, 1, 2020, 0, 0⟩, 0), (⟨1, 1, 2020, 12, 0⟩, 98703/200)]⟩

/-- The result of compiling `fsEx` without persistence. -/
def rEx : ResultadoCompilacao := ⟨dfOut, fsEx, ["dados/Solcast_2020.csv"]⟩

/-- The filesystem after compiling `fsEx` with persistence: the output
directory was created and the compiled series written. -/
def fs7 : FS :=
  ⟨[⟨outputDir "home", "dados_compilados_Solcast.csv", .compiled dfOut⟩,
    ⟨"dados", "Solcast_2020.csv", .raw rawEx⟩], [outputDir "home"]⟩

/-- The result of compiling `fsEx` with persistence. -/
def r7 : ResultadoCompilacao := ⟨dfOut, fs7, ["dados/Solcast_2020.csv"]⟩

/-- A small cached series used to exercise the reuse branch. -/
def df5 : FormattedDF := ⟨"Energia", [(⟨1, 1, 2020, 0, 0⟩, 1)]⟩

/-- A filesystem whose output path already holds a compiled series. -/
def fs5 : FS :=
  ⟨[⟨outputDir "home", "dados_compilados_Solcast.csv", .compiled df5⟩],
   [outputDir "home"]⟩

theorem converterIndice_valores (l : List (String × ℚ)) :
    ∀ l', converterIndice l = .ok l' → l'.map Prod.snd = l.map Prod.snd := by
  induction l with
  | nil =>
    intro l' h
    simp only [converterIndice] at h
    cases h
    rfl
  | cons p resto ih =>
    intro l' h
    obtain ⟨s, v⟩ := p
    simp only [converterIndice] at h
    cases hpd : pd_to_datetime s with
    | none => rw [hpd] at h; cases h
    | some t =>
      cases hc : converterIndice resto with
      | error e => rw [hpd, hc] at h; cases h
      | ok r =>
        rw [hpd, hc] at h
        cases h
        simp [ih r hc]

theorem clampDiv (v : ℚ) :
    (if v / 1000 < 0 then (0 : ℚ) else v / 1000) =
      if v < 0 then 0 else v / 1000 := by
  rcases lt_or_le v 0 with hv | hv
  · rw [if_pos hv, if_pos (div_neg_of_neg_of_pos hv (by norm_num))]
  · rw [if_neg (not_lt.mpr hv),
      if_neg (not_lt.mpr (div_nonneg hv (by norm_num)))]

theorem processar_ok_false (existe : Bool) (resposta : String)
    (h : processar_arquivo existe resposta = .ok false) : existe = true := by
  cases existe with
  | true => rfl
  | false => simp [processar_arquivo] at h

theorem compilar_processar_true (fs : FS) (diretorio base : String)
    (pt pl : ℚ) (salvar : Bool) (resposta cwd : String)
    (h : processar_arquivo (pathExists fs (outputArquivo cwd base)) resposta
      = .ok true) :
    compilar_dados fs diretorio base pt pl salvar resposta cwd =
      recompilar fs diretorio base pt pl salvar cwd := by
  simp only [compilar_dados]
  rw [h]

theorem compilar_processar_false (fs : FS) (diretorio base : String)
    (pt pl : ℚ) (salvar : Bool) (resposta cwd : String)
    (h : processar_arquivo (pathExists fs (outputArquivo cwd base)) resposta
      = .ok false) :
    compilar_dados fs diretorio base pt pl salvar resposta cwd =
      match readFile fs (outputArquivo cwd base) with
      | some (.compiled df) => .ok ⟨df, fs, [outputArquivo cwd base]⟩
      | _ => .error (.readError (outputArquivo cwd base)) := by
  simp only [compilar_dados]
  rw [h]

theorem recompilar_ok (fs : FS) (diretorio base : String) (pt pl : ℚ)
    (salvar : Bool) (cwd : String) (res : ResultadoCompilacao)
    (h : recompilar fs diretorio base pt pl salvar cwd = .ok res) :
    ∃ dados df0,
      lerTodos fs (listar_arquivos fs diretorio base) = .ok dados ∧
      pd_concat dados = .ok df0 ∧
      res = ⟨aplicarFator df0 (fator_perdas pt pl),
        if salvar then
          escrever (makedirs fs (outputDir cwd)) (outputDir cwd)
            ("dados_compilados_" ++ base ++ ".csv")
            (.compiled (aplicarFator df0 (fator_perdas pt pl)))
        else fs,
        listar_arquivos fs diretorio base⟩ := by
  simp only [recompilar] at h
  cases hl : lerTodos fs (listar_arquivos fs diretorio base) with
  | error e => rw [hl] at h; cases h
  | ok dados =>
    rw [hl] at h
    dsimp only at h
    cases hc : pd_concat dados with
    | error e => rw [hc] at h; cases h
    | ok df0 =>
      rw [hc] at h
      dsimp only at h
      cases h
      exact ⟨dados, df0, rfl, hc, rfl⟩

theorem readFile_escrever (fs : FS) (d n : String) (c : FileContent) :
    readFile (escrever fs d n c) (pathJoin d n) = some c := by
  simp [readFile, escrever, List.find?]

theorem pathExists_escrever (fs : FS) (d n : String) (c : FileContent) :
    pathExists (escrever fs d n c) (pathJoin d n) = true := by
  simp [pathExists, escrever]

theorem toUpper_S : "S".toUpper = "S" := by with_unfolding_all decide

theorem toUpper_N : "N".toUpper = "N" := by with_unfolding_all decide

theorem lerEx : ler_e_formatar_dados rawEx = .ok dfNorm := by
  have h1 : pd_to_datetime "01/01/20 00:00" = some ⟨1, 1, 2020, 0, 0⟩ := by decide
  have h2 : pd_to_datetime "01/01/20 12:00" = some ⟨1, 1, 2020, 12, 0⟩ := by decide
  have hv1 : ((-50 : ℚ) / 1000 < 0) := by norm_num
  have hv2 : ¬((500000 : ℚ) / 1000 < 0) := by norm_num
  have hv3 : (500000 : ℚ) / 1000 = 500 := by norm_num
  simp [ler_e_formatar_dados, rawEx, converterIndice, dfNorm, h1, h2, hv1, hv2, hv3]

theorem readEx : readFile fsEx "dados/Solcast_2020.csv" = some (.raw rawEx) := by
  simp [readFile, fsEx, List.find?, pathJoin]

theorem listarEx : listar_arquivos fsEx "dados" "Solcast" =
    ["dados/Solcast_2020.csv"] := by decide

theorem existsEx : pathExists fsEx (outputArquivo "home" "Solcast") = false := by
  decide

theorem fatorEx : fator_perdas (3/1000) (1/100) = 98703/100000 := by
  norm_num [fator_perdas]

theorem lerTodosEx : lerTodos fsEx ["dados/Solcast_2020.csv"] = .ok [dfNorm] := by
  simp [lerTodos, readEx, lerEx]

theorem concatEx : pd_concat [dfNorm] = .ok dfNorm := by
  simp [pd_concat]

theorem aplicarFatorEx :
    aplicarFator dfNorm (fator_perdas (3/1000) (1/100)) = dfOut := by
  simp [aplicarFator, dfNorm, dfOut]
  norm_num [fator_perdas]

theorem gateEx :
    processar_arquivo (pathExists fsEx (outputArquivo "home" "Solcast")) "S" =
      .ok true := by
  rw [existsEx]
  simp [processar_arquivo]

theorem recompilarFalseEx :
    recompilar fsEx "dados" "Solcast" (3/1000) (1/100) false "home" =
      .ok rEx := by
  simp only [recompilar, listarEx, lerTodosEx, concatEx, aplicarFatorEx,
    if_neg (by simp : ¬(false = true)), rEx]

theorem makedirsEx :
    makedirs fsEx (outputDir "home") = ⟨fsEx.entries, [outputDir "home"]⟩ := by
  simp [makedirs, fsEx]

theorem escreverEx :
    escrever (makedirs fsEx (outputDir "home")) (outputDir "home")
      "dados_compilados_Solcast.csv" (.compiled dfOut) = fs7 := by
  rw [makedirsEx]
  simp [escrever, fsEx, fs7, outputDir, pathJoin]

theorem recompilarTrueEx :
    recompilar fsEx "dados" "Solcast" (3/1000) (1/100) true "home" =
      .ok r7 := by
  simp only [recompilar, listarEx, lerTodosEx, concatEx, aplicarFatorEx]
  simp [escreverEx, r7]

theorem compilarEx :
    compilar_dados fsEx "dados" "Solcast" (3/1000) (1/100) false "S" "home" =
      .ok rEx := by
  rw [compilar_processar_true fsEx "dados" "Solcast" (3/1000) (1/100) false
    "S" "home" gateEx, recompilarFalseEx]

theorem compilarSalvarEx :
    compilar_dados fsEx "dados" "Solcast" (3/1000) (1/100) true "S" "home" =
      .ok r7 := by
  rw [compilar_processar_true fsEx "dados" "Solcast" (3/1000) (1/100) true
    "S" "home" gateEx, recompilarTrueEx]

theorem readFs5 : readFile fs5 (outputArquivo "home" "Solcast") =
    some (.compiled df5) := by
  simp [readFile, fs5, outputArquivo, outputDir, pathJoin, List.find?]

theorem existsFs5 : pathExists fs5 (outputArquivo "home" "Solcast") = true := by
  decide

theorem processar_S (existe : Bool) : processar_arquivo existe "S" = .ok true := by
  cases existe <;> simp [processar_arquivo, toUpper_S]

theorem processar_N : processar_arquivo true "N" = .ok false := by
  simp [processar_arquivo, toUpper_N]

theorem toUpper_s_min : "s".toUpper = "S" := by with_unfolding_all decide

theorem toUpper_n_min : "n".toUpper = "N" := by with_unfolding_all decide

/-- C1: for every raw value v read from an input file by the Record
Normalizer, the corresponding normalized value of the returned series is
exactly 0 when v < 0 and exactly v / 1000 when v ≥ 0. -/
theorem C1_valores_normalizados (r : RawDF) (df : FormattedDF)
    (h : ler_e_formatar_dados r = .ok df) :
    df.rows.map Prod.snd =
      r.rows.map (fun p => if p.2 < 0 then 0 else p.2 / 1000) := by
  simp only [ler_e_formatar_dados] at h
  cases hc : converterIndice ((r.rows.map (fun p => (p.1, p.2 / 1000))).map
      (fun p => (p.1, if p.2 < 0 then 0 else p.2))) with
  | error e => rw [hc] at h; cases h
  | ok rows =>
    rw [hc] at h
    dsimp only at h
    injection h with h1
    rw [← h1]
    have hv := converterIndice_valores _ _ hc
    dsimp only
    rw [hv, List.map_map, List.map_map]
    refine List.map_congr_left ?_
    intro p _
    simpa using clampDiv p.2

/-- Witness for C1 at the example raw file. -/
theorem C1_valores_normalizados_witness :
    dfNorm.rows.map Prod.snd =
      rawEx.rows.map (fun p => if p.2 < 0 then 0 else p.2 / 1000) :=
  C1_valores_normalizados rawEx dfNorm lerEx

/-- C2: at a directory with no file matching the tag, the File Selector
does return an empty match list without error, but the Compiler does not
return an empty series: `pd.concat` of the empty list raises, so the
whole compilation fails with `noObjectsToConcatenate` (evaluation at the
failing input). -/
theorem C2_concat_vazio_falha :
    listar_arquivos ⟨[], []⟩ "dados" "Solcast" = [] ∧
    compilar_dados ⟨[], []⟩ "dados" "Solcast" (3/1000) (1/100) false "S" "home"
      = .error .noObjectsToConcatenate := by
  constructor
  · decide
  · rw [compilar_processar_true ⟨[], []⟩ "dados" "Solcast" (3/1000) (1/100)
      false "S" "home" (by decide)]
    simp [recompilar, listar_arquivos, listdir, lerTodos, pd_concat]

/-- C3 counterexample: over a directory whose own path contains the tag,
the File Selector also returns entries whose name does not contain the
tag, because the substring test runs on the full joined path. -/
theorem C3_contraexemplo :
    listar_arquivos ⟨[⟨"dados_Solcast", "Outra_2020.csv", .raw ⟨"kW", []⟩⟩], []⟩
        "dados_Solcast" "Solcast" = ["dados_Solcast/Outra_2020.csv"] ∧
    strContem "Outra_2020.csv" "Solcast" = false := by decide

/-- C3 amended: the File Selector returns exactly the joined full paths
(directory ++ "/" ++ name) of the directory entries whose full joined
path contains the tag as a substring; the name-only characterization of
the claim holds only when the directory path does not interfere. -/
theorem C3_filtro_caminho_completo (fs : FS) (diretorio base x : String) :
    x ∈ listar_arquivos fs diretorio base ↔
      (∃ nome ∈ listdir fs diretorio, x = pathJoin diretorio nome) ∧
        strContem x base = true := by
  simp only [listar_arquivos, List.mem_filter, List.mem_map]
  constructor
  · rintro ⟨⟨nome, hn, hx⟩, hc⟩
    exact ⟨⟨nome, hn, hx.symm⟩, hc⟩
  · rintro ⟨⟨nome, hn, hx⟩, hc⟩
    exact ⟨⟨nome, hn, hx.symm⟩, hc⟩

/-- Witness for C3's amended statement at a concrete directory. -/
theorem C3_filtro_caminho_completo_witness :
    "dados/Solcast_2020.csv" ∈ listar_arquivos fsEx "dados" "Solcast" ↔
      (∃ nome ∈ listdir fsEx "dados",
        "dados/Solcast_2020.csv" = pathJoin "dados" nome) ∧
        strContem "dados/Solcast_2020.csv" "Solcast" = true :=
  C3_filtro_caminho_completo fsEx "dados" "Solcast" "dados/Solcast_2020.csv"

/-- C4: the combined loss multiplier (1-a)(1-b) is the same in either
order of the two rates and lies in (0,1] for rates in [0,1); the
Compiler's result is accordingly invariant under swapping the rates. -/
theorem C4_fator_comutativo_limitado (a b : ℚ)
    (ha0 : 0 ≤ a) (ha1 : a < 1) (hb0 : 0 ≤ b) (hb1 : b < 1) :
    fator_perdas a b = fator_perdas b a ∧
    0 < fator_perdas a b ∧ fator_perdas a b ≤ 1 ∧
    ∀ fs diretorio base salvar resposta cwd,
      compilar_dados fs diretorio base a b salvar resposta cwd =
        compilar_dados fs diretorio base b a salvar resposta cwd := by
  have hcomm : fator_perdas a b = fator_perdas b a := by
    unfold fator_perdas; ring
  refine ⟨hcomm, ?_, ?_, ?_⟩
  · unfold fator_perdas; nlinarith
  · unfold fator_perdas; nlinarith
  · intro fs diretorio base salvar resposta cwd
    simp only [compilar_dados, recompilar, hcomm]

/-- Witness for C4 at the source's default rates 0.003 and 0.01. -/
theorem C4_fator_witness :
    fator_perdas (3/1000) (1/100) = fator_perdas (1/100) (3/1000) ∧
    0 < fator_perdas (3/1000) (1/100) ∧ fator_perdas (3/1000) (1/100) ≤ 1 ∧
    compilar_dados fsEx "dados" "Solcast" (3/1000) (1/100) false "S" "home" =
      compilar_dados fsEx "dados" "Solcast" (1/100) (3/1000) false "S" "home" :=
  have h := C4_fator_comutativo_limitado (3/1000) (1/100) (by norm_num)
    (by norm_num) (by norm_num) (by norm_num)
  ⟨h.1, h.2.1, h.2.2.1, h.2.2.2 fsEx "dados" "Solcast" false "S" "home"⟩

theorem readFile_escrever_output (fs : FS) (base cwd : String)
    (c : FileContent) :
    readFile (escrever fs (outputDir cwd)
        ("dados_compilados_" ++ base ++ ".csv") c) (outputArquivo cwd base) =
      some c :=
  readFile_escrever fs (outputDir cwd) ("dados_compilados_" ++ base ++ ".csv") c

theorem pathExists_escrever_output (fs : FS) (base cwd : String)
    (c : FileContent) :
    pathExists (escrever fs (outputDir cwd)
        ("dados_compilados_" ++ base ++ ".csv") c) (outputArquivo cwd base) =
      true :=
  pathExists_escrever fs (outputDir cwd)
    ("dados_compilados_" ++ base ++ ".csv") c

/-- C5: with an existing output path, decision S re-executes ingestion
from the raw files instead of short-circuiting to the cache read;
decision N returns the cached series verbatim (no loss factors
reapplied), reading only the output file and no raw input; and a
recompilation's reads are exactly the files the File Selector matched. -/
theorem C5_gate_reprocessa_ou_reusa (fs : FS) (diretorio base : String)
    (pt pl : ℚ) (salvar : Bool) (cwd : String)
    (hex : pathExists fs (outputArquivo cwd base) = true) :
    (compilar_dados fs diretorio base pt pl salvar "S" cwd =
      recompilar fs diretorio base pt pl salvar cwd) ∧
    (∀ d, readFile fs (outputArquivo cwd base) = some (.compiled d) →
      compilar_dados fs diretorio base pt pl salvar "N" cwd =
        .ok ⟨d, fs, [outputArquivo cwd base]⟩) ∧
    (∀ res, recompilar fs diretorio base pt pl salvar cwd = .ok res →
      res.leituras = listar_arquivos fs diretorio base) := by
  refine ⟨?_, ?_, ?_⟩
  · exact compilar_processar_true _ _ _ _ _ _ _ _
      (by rw [hex]; exact processar_S true)
  · intro d hd
    rw [compilar_processar_false _ _ _ _ _ _ _ _
      (by rw [hex]; exact processar_N), hd]
  · intro res h
    obtain ⟨dados, df0, _, _, hres⟩ := recompilar_ok _ _ _ _ _ _ _ _ h
    rw [hres]

/-- Witness for C5: reuse on a filesystem holding a cached series. -/
theorem C5_gate_witness :
    compilar_dados fs5 "dados" "Solcast" (3/1000) (1/100) false "N" "home" =
      .ok ⟨df5, fs5, [outputArquivo "home" "Solcast"]⟩ :=
  (C5_gate_reprocessa_ou_reusa fs5 "dados" "Solcast" (3/1000) (1/100) false
    "home" existsFs5).2.1 df5 readFs5

/-- C6: the Cache Gate returns true when the output path does not exist;
when it exists it returns true for S (reprocess), false for N (reuse),
and fails with the invalid-response error on anything whose uppercasing
is neither, never choosing a default. -/
theorem C6_gate_validacao (resposta : String) :
    processar_arquivo false resposta = .ok true ∧
    processar_arquivo true "S" = .ok true ∧
    processar_arquivo true "N" = .ok false ∧
    (resposta.toUpper ≠ "S" → resposta.toUpper ≠ "N" →
      processar_arquivo true resposta = .error .invalidResponse) := by
  refine ⟨by simp [processar_arquivo], processar_S true, processar_N,
    fun h1 h2 => ?_⟩
  simp [processar_arquivo, h1, h2]

/-- Witness for C6 at an invalid response. -/
theorem C6_gate_witness :
    processar_arquivo true "talvez" = .error .invalidResponse :=
  (C6_gate_validacao "talvez").2.2.2 (by with_unfolding_all decide)
    (by with_unfolding_all decide)

/-- C7: a compilation call with persistence enabled followed by a second
call with decision N yields the same series: the second call loads the
persisted output and returns it with the filesystem unchanged. -/
theorem C7_roundtrip (fs : FS) (diretorio base : String) (pt pl : ℚ)
    (resposta cwd : String) (r : ResultadoCompilacao)
    (h : compilar_dados fs diretorio base pt pl true resposta cwd = .ok r)
    (salvar2 : Bool) :
    compilar_dados r.fs diretorio base pt pl salvar2 "N" cwd =
      .ok ⟨r.df, r.fs, [outputArquivo cwd base]⟩ := by
  simp only [compilar_dados] at h
  cases hg : processar_arquivo (pathExists fs (outputArquivo cwd base))
      resposta with
  | error e => rw [hg] at h; cases h
  | ok b =>
    cases b with
    | true =>
      rw [hg] at h
      dsimp only at h
      obtain ⟨dados, df0, hl, hc, hres⟩ := recompilar_ok _ _ _ _ _ _ _ _ h
      subst hres
      dsimp only [if_pos]
      rw [compilar_processar_false _ _ _ _ _ _ _ _
        (by rw [if_pos rfl, pathExists_escrever_output]; exact processar_N)]
      rw [if_pos rfl, readFile_escrever_output]
    | false =>
      rw [hg] at h
      dsimp only at h
      have hex := processar_ok_false _ _ hg
      cases hrf : readFile fs (outputArquivo cwd base) with
      | none => rw [hrf] at h; cases h
      | some c =>
        cases c with
        | raw rdf => rw [hrf] at h; cases h
        | compiled d =>
          rw [hrf] at h
          dsimp only at h
          injection h with h1
          subst h1
          rw [compilar_processar_false _ _ _ _ _ _ _ _
            (by rw [hex]; exact processar_N), hrf]

/-- Witness for C7: round trip through the persisted example output. -/
theorem C7_roundtrip_witness :
    compilar_dados r7.fs "dados" "Solcast" (3/1000) (1/100) false "N" "home" =
      .ok ⟨r7.df, r7.fs, [outputArquivo "home" "Solcast"]⟩ :=
  C7_roundtrip fsEx "dados" "Solcast" (3/1000) (1/100) "S" "home" r7
    compilarSalvarEx false

/-- C8: under the fixed raw configuration with losses 0.003 and 0.01,
the row with value -50 normalizes to 0 and stays 0 after losses, and the
row with value 500000 normalizes to 500 MW and is loss-adjusted to
500 * 0.997 * 0.99 = 493.515. -/
theorem C8_exemplo_concreto :
    ler_e_formatar_dados rawEx = .ok dfNorm ∧
    dfNorm.rows.map Prod.snd = [0, 500] ∧
    compilar_dados fsEx "dados" "Solcast" (3/1000) (1/100) false "S" "home" =
      .ok rEx ∧
    rEx.df.rows.map Prod.snd = [0, 500 * fator_perdas (3/1000) (1/100)] ∧
    (500 : ℚ) * fator_perdas (3/1000) (1/100) = 493515/1000 := by
  refine ⟨lerEx, by simp [dfNorm], compilarEx, ?_, by norm_num [fator_perdas]⟩
  simp [rEx, dfOut]
  norm_num [fator_perdas]

/-- C9: the Cache Gate's comparison is case-insensitive: S and s both
reprocess, N and n both reuse, and the error is raised exactly for the
responses whose uppercasing is neither S nor N. -/
theorem C9_comparacao_maiusculas (resposta : String) :
    processar_arquivo true "S" = .ok true ∧
    processar_arquivo true "s" = .ok true ∧
    processar_arquivo true "N" = .ok false ∧
    processar_arquivo true "n" = .ok false ∧
    (processar_arquivo true resposta = .error .invalidResponse ↔
      (resposta.toUpper ≠ "S" ∧ resposta.toUpper ≠ "N")) := by
  refine ⟨processar_S true, by simp [processar_arquivo, toUpper_s_min],
    processar_N, by simp [processar_arquivo, toUpper_n_min], ?_⟩
  by_cases h1 : resposta.toUpper = "S"
  · simp [processar_arquivo, h1]
  · by_cases h2 : resposta.toUpper = "N"
    · simp [processar_arquivo, h1, h2]
    · simp [processar_arquivo, h1, h2]

/-- Witness for C9 at a lower-case reuse response. -/
theorem C9_comparacao_witness :
    processar_arquivo true "n" = .ok false :=
  (C9_comparacao_maiusculas "n").2.2.2.1

/-- C10: a compilation call that succeeds with the persist flag false
leaves the filesystem exactly as it was: no file or directory is created
or modified. -/
theorem C10_sem_escrita (fs : FS) (diretorio base : String) (pt pl : ℚ)
    (resposta cwd : String) (res : ResultadoCompilacao)
    (h : compilar_dados fs diretorio base pt pl false resposta cwd = .ok res) :
    res.fs = fs := by
  simp only [compilar_dados] at h
  cases hg : processar_arquivo (pathExists fs (outputArquivo cwd base))
      resposta with
  | error e => rw [hg] at h; cases h
  | ok b =>
    cases b with
    | true =>
      rw [hg] at h
      dsimp only at h
      obtain ⟨dados, df0, _, _, hres⟩ := recompilar_ok _ _ _ _ _ _ _ _ h
      rw [hres]
      simp
    | false =>
      rw [hg] at h
      dsimp only at h
      cases hrf : readFile fs (outputArquivo cwd base) with
      | none => rw [hrf] at h; cases h
      | some c =>
        cases c with
        | raw rdf => rw [hrf] at h; cases h
        | compiled d =>
          rw [hrf] at h
          dsimp only at h
          injection h with h1
          rw [← h1]

/-- Witness for C10: the non-persisting example compilation leaves the
filesystem untouched. -/
theorem C10_sem_escrita_witness : rEx.fs = fsEx :=
  C10_sem_escrita fsEx "dados" "Solcast" (3/1000) (1/100) "S" "home" rEx
    compilarEx
